import Mathlib

/-!
Verification of the storage routing and concurrency-control layer of the
git-laminar-flow configuration registry server.

The embedding follows the TypeScript source: the repository configuration
document (src/lib/repoConfig.ts), the backend storage variants and their
operations (src/lib/storage.ts), the backend router (src/lib/registry.ts,
`Registry.getBackend`) and the PUT / DELETE route handler bodies
(src/lib/hapi.ts).  Documents are opaque payloads with a content digest;
semantic version tags are coded as naturals (the image of `Semver.coerce`
on well-formed tags, ordered the way `Semver.gt` orders tags).  The route
handlers are modelled against an `AzureBlobStorage`-backed registry — the
backend whose load and save operations are fully implemented — with the
router modelled separately; the `validateVersion` request pre-hook, which
runs before each handler body, is assumed to have passed.
-/

namespace GlfServer

/-- A repository configuration document (src/lib/repoConfig.ts `Config`).
The storage layer treats the document as an opaque, hashable payload:
`data` stands for the canonical serialized business content and
`apiVersion` for the document's declared `apiVersion` field (`none` when
the field is absent). -/
structure RepoConfig where
  data : String
  apiVersion : Option Nat
deriving DecidableEq, Repr

/-- `Config.calculateHash`, the mixin inherited from the git-laminar-flow
library: a deterministic content digest of the document's canonical
serialized form, used as the optimistic-concurrency token.  Modelled as a
digest of the whole document; like a real md5 hex digest it is never the
empty string (so it is always truthy in the handler's guards). -/
def RepoConfig.calculateHash (c : RepoConfig) : String :=
  "md5-" ++ c.data ++ "-" ++
    (match c.apiVersion with
     | some v => toString v
     | none => "noversion")

/-- The bytes stored at a backend path: either `JSON.stringify` of a
document or bytes that fail to parse back into a document envelope. -/
inductive BlobContent
  | json (c : RepoConfig)
  | garbage
deriving DecidableEq, Repr

/-- `RepoConfig.parse(JSON.parse(bytes))`: recover the document from stored
bytes; `none` models the parse throwing on malformed content. -/
def parseRepoConfig : BlobContent → Option RepoConfig
  | .json c => some c
  | .garbage => none

/-- A stored blob: its content plus the `glf_api_version` sidecar metadata
(`none` when the metadata entry is absent, in which case the readers
default it to `v0`, coded 0). -/
structure Blob where
  content : BlobContent
  glfApiVersion : Option Nat
deriving DecidableEq, Repr

/-- A fully qualified document key `(registry, namespace, name, support?)`
as taken from the route parameters. -/
structure Key where
  registry : String
  namespace_ : String
  name : String
  support : Option String
deriving DecidableEq, Repr

/-- The remote blob/object store a backend talks to: the blob stored at
each key's derived path, `none` when absent. -/
abbrev Store := Key → Option Blob

/-- Writing a blob at a key's path, leaving every other path unchanged. -/
def Store.update (s : Store) (k : Key) (b : Blob) : Store :=
  fun k2 => if k2 = k then some b else s k2

/-- Outcome of a backend `loadConfig` call (src/lib/storage.ts):
`notFound` models the native client raising on an absent blob/object,
`versionIncompatible` the version-gate error, `corrupt` a payload that
fails to parse back into a document. -/
inductive LoadResult
  | ok (c : RepoConfig)
  | notFound
  | versionIncompatible
  | corrupt
deriving DecidableEq, Repr

/-- `AzureBlobStorage.loadConfig` (src/lib/storage.ts lines 261-276): read
the blob's properties, coerce the `glf_api_version` metadata (absent
defaults to `v0`, coded 0) and fail when it exceeds the server's api
version, all BEFORE downloading and parsing the payload; an absent blob
makes the property read raise a not-found error. -/
def AzureBlobStorage.loadConfig (apiVersion : Nat) (s : Store) (k : Key) : LoadResult :=
  match s k with
  | none => .notFound
  | some blob =>
      let glfVersion := blob.glfApiVersion.getD 0
      if apiVersion < glfVersion then .versionIncompatible
      else
        match parseRepoConfig blob.content with
        | some config => .ok config
        | none => .corrupt

/-- `AzureBlobStorage.saveConfig` (src/lib/storage.ts lines 277-290):
upload `JSON.stringify(config)` at the key's derived path, attaching the
server's own `API_VERSION` constant as the `glf_api_version` metadata. -/
def AzureBlobStorage.saveConfig (apiVersion : Nat) (s : Store) (config : RepoConfig) (k : Key) : Store :=
  s.update k { content := .json config, glfApiVersion := some apiVersion }

/-- `AzureBlobStorage.deleteConfig` (src/lib/storage.ts lines 291-293):
the body is a single `throw new Error('Not Implemented')`; `none` models
the raised error — no updated store is ever produced. -/
def AzureBlobStorage.deleteConfig (_s : Store) (_k : Key) : Option Store :=
  none

/-- `S3Storage.loadConfig` (src/lib/storage.ts lines 354-370): fetch the
object, coerce the `glf-api-version` object metadata (absent defaults to
`v0`) and fail when it exceeds the server's api version before the body is
read and parsed; an absent object makes the get raise a not-found error. -/
def S3Storage.loadConfig (apiVersion : Nat) (s : Store) (k : Key) : LoadResult :=
  match s k with
  | none => .notFound
  | some blob =>
      let glfVersion := blob.glfApiVersion.getD 0
      if apiVersion < glfVersion then .versionIncompatible
      else
        match parseRepoConfig blob.content with
        | some config => .ok config
        | none => .corrupt

/-- `S3Storage.saveConfig` (src/lib/storage.ts lines 371-381): put
`JSON.stringify(config)` with the server's own `API_VERSION` constant as
the `glf-api-version` object metadata. -/
def S3Storage.saveConfig (apiVersion : Nat) (s : Store) (config : RepoConfig) (k : Key) : Store :=
  s.update k { content := .json config, glfApiVersion := some apiVersion }

/-- How a HEAD-style existence probe against a backend ends: the object is
there, the service answers with a clean not-found, or the request itself
fails (network transport failure, rejected credentials). -/
inductive HeadOutcome
  | found
  | notFoundError
  | transportError
  | credentialError
deriving DecidableEq, Repr

/-- `S3Storage.configExists` (src/lib/storage.ts lines 348-353):
`send(HeadObjectCommand).then(() => true).catch(() => false)` — every
rejection of the head request, whatever its cause, resolves to `false`. -/
def S3Storage.configExists (head : HeadOutcome) : Bool :=
  match head with
  | .found => true
  | .notFoundError => false
  | .transportError => false
  | .credentialError => false

/-- `GlfsStorage.configExists` (src/lib/storage.ts lines 414-421):
`Axios.head(url).then(() => true).catch(() => false)` — the same collapse
of every rejection to `false`. -/
def GlfsStorage.configExists (head : HeadOutcome) : Bool :=
  match head with
  | .found => true
  | .notFoundError => false
  | .transportError => false
  | .credentialError => false

/-- How the caller's transform passed to the acquire-mutate-release
operation ends: it returns (optionally with a replacement document), or it
raises an error. -/
inductive CbOutcome
  | ret (replacement : Option RepoConfig)
  | raised
deriving DecidableEq, Repr

/-- The backend actions the acquire-mutate-release operation can perform,
in the order its body issues them. -/
inductive AzAction
  | acquireLease
  | download
  | callCb
  | upload
  | releaseLease
deriving DecidableEq, Repr

/-- `AzureBlobStorage.aquireConfig` (the storage module snapshot, lines
195-224): acquire an infinite-duration exclusive lease, download under the
lease, parse, run the caller's transform, upload the replacement if one
was returned, then release the lease.  The body is straight-line `await`s
with no try/finally, so an error raised by the transform propagates and
the statements after the call — including the lease release — never run.
The result is the list of backend actions actually executed, plus `true`
when the operation ended by propagating the transform's error. -/
def AzureBlobStorage.aquireConfig (cb : CbOutcome) : List AzAction × Bool :=
  match cb with
  | .raised => ([.acquireLease, .download, .callCb], true)
  | .ret none => ([.acquireLease, .download, .callCb, .releaseLease], false)
  | .ret (some _) => ([.acquireLease, .download, .callCb, .upload, .releaseLease], false)

/-- A constructed storage backend, reduced to the fields the router reads:
its type tag, its name and its ordered glob pattern list. -/
structure StorageBackend where
  storageType : String
  name : String
  patterns : List String
deriving DecidableEq, Repr

/-- The flattened key string the router matches patterns against
(src/lib/registry.ts line 50): template
registry/namespace/name plus /support — the support segment is appended
only when `support` is truthy, so a present-but-empty support name adds
nothing, exactly as the template literal's ternary behaves. -/
def flattenKey (k : Key) : String :=
  k.registry ++ "/" ++ k.namespace_ ++ "/" ++ k.name ++
    (match k.support with
     | some sup => if sup = "" then "" else "/" ++ sup
     | none => "")

/-- `Registry.getBackend` (src/lib/registry.ts lines 49-59): find the
first configured backend one of whose patterns matches the flattened key
under the `minimatch` glob matcher (an external library, passed here as a
function); `none` models the `Could not find matching backend` error the
method throws when no backend matches. -/
def Registry.getBackend (minimatch : String → String → Bool)
    (storageBackends : List StorageBackend) (k : Key) : Option StorageBackend :=
  storageBackends.find? (fun b => b.patterns.any (fun p => minimatch (flattenKey k) p))

/-- `FileStorageSchema` (src/lib/storage.ts lines 21-26), reduced to the
fields its `fromSchema` reads. -/
structure FileStorageSchema where
  name : String
  patterns : Option (List String)
  reposPath : Option String

/-- `FileStorage.fromSchema` (src/lib/storage.ts lines 107-114):
`patterns: value.patterns?.slice() ?? [ '**' ]`. -/
def FileStorage.fromSchema (v : FileStorageSchema) : StorageBackend :=
  { storageType := "file", name := v.name, patterns := v.patterns.getD ["**"] }

/-- `AzureBlobStorageSchema` (src/lib/storage.ts lines 27-37), reduced to
the fields its `fromSchema` reads. -/
structure AzureBlobStorageSchema where
  name : String
  patterns : Option (List String)
  containerName : String
  leaseId : String
  connectionString : Option String

/-- `AzureBlobStorage.fromSchema` (src/lib/storage.ts lines 182-210):
fall back to the AZ_STORAGE_CONNECTION_STRING environment variable, raise
(`none`) when neither connection string is set, and otherwise construct
the backend with `patterns: value.patterns?.slice() ?? [ '**' ]`. -/
def AzureBlobStorage.fromSchema (envConnectionString : Option String)
    (v : AzureBlobStorageSchema) : Option StorageBackend :=
  match v.connectionString <|> envConnectionString with
  | none => none
  | some _ =>
      some { storageType := "azureBlobStorage", name := v.name,
             patterns := v.patterns.getD ["**"] }

/-- `S3StorageSchema` (src/lib/storage.ts lines 38-46), reduced to the
fields its `fromSchema` reads. -/
structure S3StorageSchema where
  name : String
  patterns : Option (List String)
  endpoint : Option String
  bucket : String
  accessKeyId : Option String
  accessKeySecret : Option String

/-- `S3Storage.fromSchema` (src/lib/storage.ts lines 307-325): fall back
to the S3_ACCESS_KEY_ID / S3_ACCESS_KEY_SECRET environment variables,
raise (`none`) when either credential is missing, and otherwise construct
the backend with `patterns: value.patterns?.slice() ?? [ '**' ]`. -/
def S3Storage.fromSchema (envAccessKeyId envAccessKeySecret : Option String)
    (v : S3StorageSchema) : Option StorageBackend :=
  match v.accessKeyId <|> envAccessKeyId, v.accessKeySecret <|> envAccessKeySecret with
  | some _, some _ =>
      some { storageType := "s3", name := v.name, patterns := v.patterns.getD ["**"] }
  | _, _ => none

/-- `GlfsStorageSchema` (src/lib/storage.ts lines 47-53), reduced to the
fields its `fromSchema` reads. -/
structure GlfsStorageSchema where
  name : String
  patterns : Option (List String)
  url : String
  apiKey : String

/-- `GlfsStorage.fromSchema` (src/lib/storage.ts lines 394-402):
`patterns: value.patterns?.slice() ?? [ '**' ]`. -/
def GlfsStorage.fromSchema (v : GlfsStorageSchema) : StorageBackend :=
  { storageType := "glfs", name := v.name, patterns := v.patterns.getD ["**"] }

/-- Outcome of the PUT route handler body (src/lib/hapi.ts lines 141-169):
a 2xx response (`wrote` records whether the backend save was invoked), a
412 precondition failure, an error propagated from loading the current
document, or a payload that fails `RepoConfig.parse`. -/
inductive PutOutcome
  | ok (wrote : Bool)
  | preconditionFailed
  | sourceLoadFailed (r : LoadResult)
  | invalidPayload
deriving DecidableEq, Repr

/-- PUT handler body (src/lib/hapi.ts lines 141-169) over an
AzureBlobStorage-backed registry.  `sourceConfig` is the stored document
when one exists, else null; the guard
`sourceConfigHash && sourceConfigHash !== ifMatch` throws 412 only when a
source hash exists (it is a non-empty digest, hence truthy) — when the
document is absent the hash is undefined and the check is skipped.  Then
the payload is parsed, and `configHash !== sourceConfigHash` decides
whether the backend save runs: against an undefined source hash the
inequality always holds, so an absent document is always written.  The
returned store is the post-state of the backing store. -/
def putHandler (apiVersion : Nat) (s : Store) (k : Key) (payload : BlobContent)
    (ifMatch : Option String) : PutOutcome × Store :=
  if (s k).isSome then
    match AzureBlobStorage.loadConfig apiVersion s k with
    | .ok sourceConfig =>
        let sourceConfigHash := sourceConfig.calculateHash
        if ifMatch ≠ some sourceConfigHash then (.preconditionFailed, s)
        else
          match parseRepoConfig payload with
          | none => (.invalidPayload, s)
          | some config =>
              if config.calculateHash ≠ sourceConfigHash then
                (.ok true, AzureBlobStorage.saveConfig apiVersion s config k)
              else (.ok false, s)
    | r => (.sourceLoadFailed r, s)
  else
    match parseRepoConfig payload with
    | none => (.invalidPayload, s)
    | some config =>
        (.ok true, AzureBlobStorage.saveConfig apiVersion s config k)

/-- Outcome of the DELETE route handler body (src/lib/hapi.ts lines
171-196): a 2xx response, a 404 when the document is absent, a 412
precondition failure, an error propagated from loading the current
document, or the error the backend's `deleteConfig` raises. -/
inductive DeleteOutcome
  | ok
  | notFound
  | preconditionFailed
  | sourceLoadFailed (r : LoadResult)
  | backendFailed
deriving DecidableEq, Repr

/-- DELETE handler body (src/lib/hapi.ts lines 171-196) over an
AzureBlobStorage-backed registry: 404 when the document does not exist;
otherwise load it, apply the same `sourceConfigHash && sourceConfigHash
!== ifMatch` guard as the PUT handler, and delegate to the backend's
`deleteConfig` — whose body is `throw new Error('Not Implemented')`.  The
returned store is the post-state of the backing store. -/
def deleteHandler (apiVersion : Nat) (s : Store) (k : Key)
    (ifMatch : Option String) : DeleteOutcome × Store :=
  if (s k).isSome then
    match AzureBlobStorage.loadConfig apiVersion s k with
    | .ok sourceConfig =>
        if ifMatch ≠ some sourceConfig.calculateHash then (.preconditionFailed, s)
        else
          match AzureBlobStorage.deleteConfig s k with
          | some s2 => (.ok, s2)
          | none => (.backendFailed, s)
    | r => (.sourceLoadFailed r, s)
  else (.notFound, s)

/-- Concrete key used by the witnesses and counterexamples. -/
def k0 : Key := { registry := "r", namespace_ := "ns", name := "repo", support := none }

/-- Concrete document used by the witnesses and counterexamples. -/
def d0 : RepoConfig := { data := "content-a", apiVersion := some 1 }

/-- The empty backing store: no document exists at any key. -/
def emptyStore : Store := fun _ => none

/-- The store holding exactly `d0` at `k0`, stamped with server version 1
(the state after a first successful save into the empty store). -/
def store0 : Store := AzureBlobStorage.saveConfig 1 emptyStore d0 k0

/-- Loading the key just saved recovers the saved document, stamped with
the writer's api version. -/
lemma loadConfig_saveConfig (apiVersion : Nat) (s : Store) (config : RepoConfig) (k : Key) :
    AzureBlobStorage.loadConfig apiVersion (AzureBlobStorage.saveConfig apiVersion s config k) k =
      LoadResult.ok config := by
  simp [AzureBlobStorage.loadConfig, AzureBlobStorage.saveConfig, Store.update, parseRepoConfig]

/-- A successful load means a blob is stored at the key. -/
lemma isSome_of_loadConfig_ok (apiVersion : Nat) (s : Store) (k : Key) (c0 : RepoConfig)
    (hload : AzureBlobStorage.loadConfig apiVersion s k = LoadResult.ok c0) :
    (s k).isSome = true := by
  cases h : s k with
  | none => rw [AzureBlobStorage.loadConfig, h] at hload; cases hload
  | some blob => simp

/-- C4: for every stored blob whose declared version metadata is strictly
greater than the server's api version, `loadConfig` fails with the
version-incompatibility error on both the Azure and the S3 backend.  The
blob's content is universally quantified — it may even be bytes that do
not parse — because the version gate runs before the payload is read and
parsed, so no partial document content is ever returned. -/
theorem loadConfig_version_gate (apiVersion : Nat) (s : Store) (k : Key)
    (blob : Blob) (v : Nat) (hstored : s k = some blob)
    (hver : blob.glfApiVersion = some v) (hgt : apiVersion < v) :
    AzureBlobStorage.loadConfig apiVersion s k = LoadResult.versionIncompatible ∧
    S3Storage.loadConfig apiVersion s k = LoadResult.versionIncompatible := by
  constructor <;>
    simp [AzureBlobStorage.loadConfig, S3Storage.loadConfig, hstored, hver, hgt]

/-- A store whose single blob declares version 2 and holds unparseable
content, for the C4 witness. -/
def storeV2 : Store :=
  fun k2 => if k2 = k0 then some { content := BlobContent.garbage, glfApiVersion := some 2 } else none

/-- Witness for C4: server version 1 refuses the stored version-2 blob on
both backends, although its content does not even parse. -/
theorem loadConfig_version_gate_witness :
    AzureBlobStorage.loadConfig 1 storeV2 k0 = LoadResult.versionIncompatible ∧
    S3Storage.loadConfig 1 storeV2 k0 = LoadResult.versionIncompatible :=
  loadConfig_version_gate 1 storeV2 k0
    { content := BlobContent.garbage, glfApiVersion := some 2 } 2
    (by simp [storeV2]) rfl (by decide)

/-- C5: a save through either implemented backend stores the document with
the server's own api version as the attached version metadata; the
document's declared `apiVersion` is universally quantified and does not
appear in the stored tag, so the stored version always reflects the
writer's protocol version. -/
theorem saveConfig_stamps_server_version (apiVersion : Nat) (s : Store)
    (config : RepoConfig) (k : Key) :
    (AzureBlobStorage.saveConfig apiVersion s config k) k =
      some { content := BlobContent.json config, glfApiVersion := some apiVersion } ∧
    (S3Storage.saveConfig apiVersion s config k) k =
      some { content := BlobContent.json config, glfApiVersion := some apiVersion } := by
  constructor <;> simp [AzureBlobStorage.saveConfig, S3Storage.saveConfig, Store.update]

/-- C7 counterexample: when the caller's transform raises, the
acquire-mutate-release operation propagates the error and the exclusive
lease acquired at the start is never released — `releaseLease` is not
among the executed actions, because the body has no try/finally. -/
theorem aquireConfig_raised_skips_release :
    (AzureBlobStorage.aquireConfig CbOutcome.raised).2 = true ∧
    AzAction.releaseLease ∉ (AzureBlobStorage.aquireConfig CbOutcome.raised).1 := by
  decide

/-- C7 (amended): the lease is released on both normal-return exit paths
of the transform (with the conditional upload exactly when a replacement
was returned), but an error raised by the transform propagates and the
release is skipped. -/
theorem aquireConfig_release_on_return (replacement : Option RepoConfig) :
    AzAction.releaseLease ∈ (AzureBlobStorage.aquireConfig (CbOutcome.ret replacement)).1 ∧
    (AzureBlobStorage.aquireConfig (CbOutcome.ret replacement)).2 = false ∧
    (AzAction.upload ∈ (AzureBlobStorage.aquireConfig (CbOutcome.ret replacement)).1 ↔
      replacement.isSome = true) ∧
    (AzureBlobStorage.aquireConfig CbOutcome.raised).2 = true ∧
    AzAction.releaseLease ∉ (AzureBlobStorage.aquireConfig CbOutcome.raised).1 := by
  cases replacement with
  | none => decide
  | some c => simp [AzureBlobStorage.aquireConfig]

/-- C8 counterexample: a transport failure and a credential failure of the
existence probe are both collapsed into the result `false` — reported
exactly like a clean not-found, not as a typed backend-unavailable
outcome — on the S3 backend and on the remote-peer backend alike. -/
theorem configExists_swallows_backend_failure :
    S3Storage.configExists HeadOutcome.transportError = false ∧
    S3Storage.configExists HeadOutcome.credentialError = false ∧
    GlfsStorage.configExists HeadOutcome.transportError = false ∧
    GlfsStorage.configExists HeadOutcome.credentialError = false := by
  decide

/-- C8 (amended): `configExists` is a total Boolean function — it never
throws, and it returns `false` for a clean not-found; but it also returns
`false` for every failed probe, transport and credential failures
included, collapsing them into the not-found answer instead of surfacing
a typed backend-unavailable outcome. -/
theorem configExists_false_unless_found (head : HeadOutcome) :
    (S3Storage.configExists head = true ↔ head = HeadOutcome.found) ∧
    (GlfsStorage.configExists head = true ↔ head = HeadOutcome.found) := by
  cases head <;> decide

/-- C1 counterexample: with no document stored at `k0` — so the stored
token is the "no prior version" sentinel — a PUT whose If-Match value is
the arbitrary string "bogus", not equal to that sentinel, succeeds and
performs a backend write instead of failing with PreconditionFailed: the
handler's truthiness-guarded check is skipped whenever the source hash is
undefined, so the absent-document case accepts every expected token. -/
theorem putHandler_absent_accepts_any_token :
    putHandler 1 emptyStore k0 (BlobContent.json d0) (some "bogus") =
      (PutOutcome.ok true, AzureBlobStorage.saveConfig 1 emptyStore d0 k0) := rfl

/-- C1 (amended): the optimistic-lock check applies only when a document
is stored.  When the key holds a loadable document with token T0, a PUT
whose If-Match value differs from T0 (a wrong token or a missing header)
fails with PreconditionFailed and leaves the backing store untouched; but
when the key is absent the check is skipped entirely and the PUT writes
the parsed payload whatever the supplied If-Match value is. -/
theorem putHandler_precondition_check (apiVersion : Nat) :
    (∀ (s : Store) (k : Key) (payload : BlobContent) (c0 : RepoConfig) (ifMatch : Option String),
        AzureBlobStorage.loadConfig apiVersion s k = LoadResult.ok c0 →
        ifMatch ≠ some c0.calculateHash →
        putHandler apiVersion s k payload ifMatch = (PutOutcome.preconditionFailed, s)) ∧
    (∀ (s : Store) (k : Key) (config : RepoConfig) (ifMatch : Option String),
        s k = none →
        putHandler apiVersion s k (BlobContent.json config) ifMatch =
          (PutOutcome.ok true, AzureBlobStorage.saveConfig apiVersion s config k)) := by
  constructor
  · intro s k payload c0 ifMatch hload hne
    have hsome := isSome_of_loadConfig_ok apiVersion s k c0 hload
    simp [putHandler, hsome, hload, hne]
  · intro s k config ifMatch hnone
    simp [putHandler, hnone, parseRepoConfig]

/-- Witness that the amended C1 statement is inhabited: the store holding
`d0` at `k0` rejects a PUT that carries no If-Match header. -/
theorem putHandler_precondition_check_witness :
    putHandler 1 store0 k0 (BlobContent.json d0) none =
      (PutOutcome.preconditionFailed, store0) :=
  (putHandler_precondition_check 1).1 store0 k0 (BlobContent.json d0) d0 none
    (by rfl) (by simp)

/-- C9 counterexample: `store0` holds `d0` at `k0`, and a DELETE carrying
exactly the stored token passes the precondition check — yet no deletion
happens: the backend's `deleteConfig` raises Not Implemented, the handler
fails, and the document is still present afterwards (no Present → Absent
transition). -/
theorem deleteHandler_never_deletes_cex :
    (deleteHandler 1 store0 k0 (some (RepoConfig.calculateHash d0))).1 =
      DeleteOutcome.backendFailed ∧
    ((deleteHandler 1 store0 k0 (some (RepoConfig.calculateHash d0))).2) k0 =
      some { content := BlobContent.json d0, glfApiVersion := some 1 } :=
  ⟨rfl, rfl⟩

/-- C9 (amended): a DELETE of an absent key fails with NotFound; a DELETE
of a present key applies the same expected-token precondition check as
save before delegating to the backend's delete; but the backend delete of
every variant is unimplemented and raises, so a matching precondition ends
in a backend error, the handler never succeeds, and the backing store is
unchanged on every path. -/
theorem deleteHandler_check_then_backend (apiVersion : Nat) :
    (∀ (s : Store) (k : Key) (ifMatch : Option String),
        s k = none →
        deleteHandler apiVersion s k ifMatch = (DeleteOutcome.notFound, s)) ∧
    (∀ (s : Store) (k : Key) (c0 : RepoConfig) (ifMatch : Option String),
        AzureBlobStorage.loadConfig apiVersion s k = LoadResult.ok c0 →
        ifMatch ≠ some c0.calculateHash →
        deleteHandler apiVersion s k ifMatch = (DeleteOutcome.preconditionFailed, s)) ∧
    (∀ (s : Store) (k : Key) (c0 : RepoConfig),
        AzureBlobStorage.loadConfig apiVersion s k = LoadResult.ok c0 →
        deleteHandler apiVersion s k (some c0.calculateHash) =
          (DeleteOutcome.backendFailed, s)) ∧
    (∀ (s : Store) (k : Key) (ifMatch : Option String),
        (deleteHandler apiVersion s k ifMatch).1 ≠ DeleteOutcome.ok ∧
        (deleteHandler apiVersion s k ifMatch).2 = s) := by
  refine ⟨?_, ?_, ?_, ?_⟩
  · intro s k ifMatch hnone
    simp [deleteHandler, hnone]
  · intro s k c0 ifMatch hload hne
    have hsome := isSome_of_loadConfig_ok apiVersion s k c0 hload
    simp [deleteHandler, hsome, hload, hne]
  · intro s k c0 hload
    have hsome := isSome_of_loadConfig_ok apiVersion s k c0 hload
    simp [deleteHandler, hsome, hload, AzureBlobStorage.deleteConfig]
  · intro s k ifMatch
    rw [deleteHandler]
    split
    · split
      · split
        · exact ⟨by simp, rfl⟩
        · constructor <;> simp [AzureBlobStorage.deleteConfig]
      · exact ⟨by simp, rfl⟩
    · exact ⟨by simp, rfl⟩

/-- Witness that the amended C9 statement is inhabited: deleting a key
from the empty store answers NotFound and changes nothing. -/
theorem deleteHandler_check_then_backend_witness :
    deleteHandler 1 emptyStore k0 none = (DeleteOutcome.notFound, emptyStore) :=
  (deleteHandler_check_then_backend 1).1 emptyStore k0 none rfl

/-- Characterization of a successful PUT of payload `json d`: either the
parsed document was written through the backend save, or the write was
skipped — which happens exactly when the new document's token equals the
stored document's token — and the store is unchanged. -/
lemma putHandler_ok_cases (apiVersion : Nat) (s : Store) (k : Key) (d : RepoConfig)
    (ifMatch : Option String) (wrote : Bool) (s1 : Store)
    (hput : putHandler apiVersion s k (BlobContent.json d) ifMatch = (PutOutcome.ok wrote, s1)) :
    s1 = AzureBlobStorage.saveConfig apiVersion s d k ∨
    (s1 = s ∧ ∃ c0, AzureBlobStorage.loadConfig apiVersion s k = LoadResult.ok c0 ∧
      d.calculateHash = c0.calculateHash) := by
  by_cases hsome : (s k).isSome = true
  · cases hload : AzureBlobStorage.loadConfig apiVersion s k with
    | ok c0 =>
        by_cases hne : ifMatch ≠ some c0.calculateHash
        · simp [putHandler, hsome, hload, hne, parseRepoConfig] at hput
        · by_cases hh : d.calculateHash ≠ c0.calculateHash
          · simp [putHandler, hsome, hload, hne, hh, parseRepoConfig] at hput
            exact Or.inl hput.2.symm
          · simp [putHandler, hsome, hload, hne, hh, parseRepoConfig] at hput
            exact Or.inr ⟨hput.2.symm, c0, rfl, not_not.mp hh⟩
    | notFound => simp [putHandler, hsome, hload] at hput
    | versionIncompatible => simp [putHandler, hsome, hload] at hput
    | corrupt => simp [putHandler, hsome, hload] at hput
  · simp [putHandler, hsome, parseRepoConfig] at hput
    exact Or.inl hput.2.symm

/-- C3: whenever a PUT of document `d` succeeds — in particular when the
caller supplied the correct expected token for the key — loading the same
key from the resulting store yields a document whose concurrency token
equals the token computed from `d`: the saved payload reached the backend
intact and unmodified. -/
theorem putHandler_load_roundtrip (apiVersion : Nat) (s : Store) (k : Key)
    (d : RepoConfig) (ifMatch : Option String) (wrote : Bool) (s2 : Store)
    (hput : putHandler apiVersion s k (BlobContent.json d) ifMatch = (PutOutcome.ok wrote, s2)) :
    ∃ c, AzureBlobStorage.loadConfig apiVersion s2 k = LoadResult.ok c ∧
      c.calculateHash = d.calculateHash := by
  rcases putHandler_ok_cases apiVersion s k d ifMatch wrote s2 hput with h | ⟨hs, c0, hload, hh⟩
  · exact ⟨d, h ▸ loadConfig_saveConfig apiVersion s d k, rfl⟩
  · exact ⟨c0, hs ▸ hload, hh.symm⟩

/-- Witness for C3: saving `d0` into the empty store and loading it back
recovers a document with the token of `d0`. -/
theorem putHandler_load_roundtrip_witness :
    ∃ c, AzureBlobStorage.loadConfig 1 store0 k0 = LoadResult.ok c ∧
      c.calculateHash = d0.calculateHash :=
  putHandler_load_roundtrip 1 emptyStore k0 d0 none true store0 rfl

/-- When the stored document's token already equals the new document's
token, the PUT succeeds without invoking the backend save and leaves the
store unchanged (the handler's no-op optimization). -/
lemma putHandler_noop_of_load_ok (apiVersion : Nat) (s : Store) (k : Key)
    (c0 d : RepoConfig)
    (hload : AzureBlobStorage.loadConfig apiVersion s k = LoadResult.ok c0)
    (hhash : d.calculateHash = c0.calculateHash) :
    putHandler apiVersion s k (BlobContent.json d) (some d.calculateHash) =
      (PutOutcome.ok false, s) := by
  have hsome := isSome_of_loadConfig_ok apiVersion s k c0 hload
  simp [putHandler, hsome, hload, parseRepoConfig, hhash]

/-- C6: after any successful PUT of document `d`, a second PUT of the same
document with the correctly updated expected token (`d`'s own token)
succeeds as a backend-level no-op: the new token equals the stored token,
the backend save is not invoked (`wrote = false`) and the stored content
is observably unchanged. -/
theorem putHandler_second_save_noop (apiVersion : Nat) (s : Store) (k : Key)
    (d : RepoConfig) (ifMatch : Option String) (wrote : Bool) (s1 : Store)
    (hput : putHandler apiVersion s k (BlobContent.json d) ifMatch = (PutOutcome.ok wrote, s1)) :
    putHandler apiVersion s1 k (BlobContent.json d) (some d.calculateHash) =
      (PutOutcome.ok false, s1) := by
  rcases putHandler_ok_cases apiVersion s k d ifMatch wrote s1 hput with h | ⟨hs, c0, hload, hh⟩
  · subst h
    exact putHandler_noop_of_load_ok apiVersion _ k d d
      (loadConfig_saveConfig apiVersion s d k) rfl
  · rw [hs]
    exact putHandler_noop_of_load_ok apiVersion s k c0 d hload hh

/-- Witness for C6: the second save of `d0` with its own token into the
store already holding it is accepted with no backend write. -/
theorem putHandler_second_save_noop_witness :
    putHandler 1 store0 k0 (BlobContent.json d0) (some (RepoConfig.calculateHash d0)) =
      (PutOutcome.ok false, store0) :=
  putHandler_second_save_noop 1 emptyStore k0 d0 none true store0 rfl

/-- Scanning a list none of whose earlier entries satisfies the predicate
finds the first satisfying entry. -/
lemma find?_append_first {α : Type} (p : α → Bool) (pre post : List α) (b : α)
    (hpre : ∀ x ∈ pre, p x = false) (hb : p b = true) :
    (pre ++ b :: post).find? p = some b := by
  induction pre with
  | nil => simp [List.find?, hb]
  | cons a l ih =>
      have ha : p a = false := hpre a (by simp)
      simp only [List.cons_append, List.find?, ha]
      exact ih (fun x hx => hpre x (by simp [hx]))

/-- C2: backend resolution flattens the key to registry/namespace/name —
appending /support exactly when a non-empty support qualifier is present —
scans the configured backend list in declaration order, returns the first
backend one of whose glob patterns matches the flattened string under the
glob matcher, and when no pattern of any backend matches yields the
distinct no-backend-matched error (`none`) rather than selecting any
default backend. -/
theorem getBackend_first_match_and_no_match_error
    (minimatch : String → String → Bool) (k : Key) :
    (∀ r ns n, flattenKey { registry := r, namespace_ := ns, name := n, support := none } =
        r ++ "/" ++ ns ++ "/" ++ n) ∧
    (∀ r ns n sup, sup ≠ "" →
        flattenKey { registry := r, namespace_ := ns, name := n, support := some sup } =
          r ++ "/" ++ ns ++ "/" ++ n ++ "/" ++ sup) ∧
    (∀ storageBackends : List StorageBackend,
        (∀ b ∈ storageBackends, ∀ p ∈ b.patterns, minimatch (flattenKey k) p = false) →
        Registry.getBackend minimatch storageBackends k = none) ∧
    (∀ (pre post : List StorageBackend) (b : StorageBackend),
        (∀ b2 ∈ pre, ∀ p ∈ b2.patterns, minimatch (flattenKey k) p = false) →
        (∃ p ∈ b.patterns, minimatch (flattenKey k) p = true) →
        Registry.getBackend minimatch (pre ++ b :: post) k = some b) := by
  refine ⟨?_, ?_, ?_, ?_⟩
  · intro r ns n
    simp [flattenKey]
  · intro r ns n sup hsup
    simp [flattenKey, hsup, String.append_assoc]
  · intro storageBackends hnone
    rw [Registry.getBackend, List.find?_eq_none]
    intro b hb
    simp only [List.any_eq_true, not_exists]
    rintro p ⟨hp, hf⟩
    rw [hnone b hb p hp] at hf
    cases hf
  · intro pre post b hpre hmatch
    rw [Registry.getBackend]
    apply find?_append_first
    · intro x hx
      rw [List.any_eq_false]
      intro p hp
      simp [hpre x hx p hp]
    · rcases hmatch with ⟨p, hp, hmp⟩
      exact List.any_eq_true.mpr ⟨p, hp, hmp⟩

/-- C10: every storage variant constructed from a schema without an
explicit pattern list defaults to the single catch-all pattern; and under
a glob matcher for which the catch-all pattern matches every string (as
minimatch's double star does), a backend list containing a catch-all
backend never fails resolution, and the earliest catch-all backend shadows
every backend declared after it: resolution only ever returns a backend at
or before the first catch-all position. -/
theorem default_patterns_catch_all
    (minimatch : String → String → Bool)
    (hcatch : ∀ s, minimatch s "**" = true) :
    (∀ v : FileStorageSchema, v.patterns = none →
        (FileStorage.fromSchema v).patterns = ["**"]) ∧
    (∀ (env : Option String) (v : AzureBlobStorageSchema) (b : StorageBackend),
        v.patterns = none → AzureBlobStorage.fromSchema env v = some b →
        b.patterns = ["**"]) ∧
    (∀ (envId envSecret : Option String) (v : S3StorageSchema) (b : StorageBackend),
        v.patterns = none → S3Storage.fromSchema envId envSecret v = some b →
        b.patterns = ["**"]) ∧
    (∀ v : GlfsStorageSchema, v.patterns = none →
        (GlfsStorage.fromSchema v).patterns = ["**"]) ∧
    (∀ (storageBackends : List StorageBackend) (k : Key),
        (∃ b ∈ storageBackends, "**" ∈ b.patterns) →
        (Registry.getBackend minimatch storageBackends k).isSome = true) ∧
    (∀ (pre post : List StorageBackend) (b : StorageBackend) (k : Key),
        "**" ∈ b.patterns →
        ∃ b2, Registry.getBackend minimatch (pre ++ b :: post) k = some b2 ∧
          b2 ∈ pre ++ [b]) := by
  refine ⟨?_, ?_, ?_, ?_, ?_, ?_⟩
  · intro v h
    simp [FileStorage.fromSchema, h]
  · intro env v b hpat hmk
    cases hconn : v.connectionString <|> env with
    | none => simp [AzureBlobStorage.fromSchema, hconn] at hmk
    | some c =>
        simp only [AzureBlobStorage.fromSchema, hconn, Option.some.injEq] at hmk
        rw [← hmk]
        simp [hpat]
  · intro envId envSecret v b hpat hmk
    cases hid : v.accessKeyId <|> envId with
    | none => simp [S3Storage.fromSchema, hid] at hmk
    | some i =>
        cases hsec : v.accessKeySecret <|> envSecret with
        | none => simp [S3Storage.fromSchema, hid, hsec] at hmk
        | some sec =>
            simp only [S3Storage.fromSchema, hid, hsec, Option.some.injEq] at hmk
            rw [← hmk]
            simp [hpat]
  · intro v h
    simp [GlfsStorage.fromSchema, h]
  · intro storageBackends k hex
    rw [Registry.getBackend, List.find?_isSome]
    rcases hex with ⟨b, hb, hpat⟩
    exact ⟨b, hb, List.any_eq_true.mpr ⟨"**", hpat, hcatch _⟩⟩
  · intro pre post b k hpat
    induction pre with
    | nil =>
        refine ⟨b, ?_, by simp⟩
        rw [Registry.getBackend]
        have hb : (b.patterns.any fun p => minimatch (flattenKey k) p) = true :=
          List.any_eq_true.mpr ⟨"**", hpat, hcatch _⟩
        simp [List.find?, hb]
    | cons a l ih =>
        cases ha : (a.patterns.any fun p => minimatch (flattenKey k) p) with
        | true =>
            refine ⟨a, ?_, by simp⟩
            rw [Registry.getBackend]
            simp [List.find?, ha]
        | false =>
            rcases ih with ⟨b2, hfind, hmem⟩
            refine ⟨b2, ?_, ?_⟩
            · rw [Registry.getBackend] at hfind ⊢
              simpa [List.find?, ha] using hfind
            · simpa using Or.inr (by simpa using hmem)

/-- A glob matcher that recognizes exactly the catch-all pattern, used to
instantiate the catch-all hypothesis of the C10 theorem. -/
def mmGlob : String → String → Bool := fun _ p => p == "**"

/-- A remote-peer backend constructed without an explicit pattern list. -/
def backendG : StorageBackend :=
  GlfsStorage.fromSchema { name := "gb", patterns := none, url := "u", apiKey := "key" }

/-- Witness for C10 at concrete inputs: the defaulted backend alone in the
route table resolves every key, here `k0`. -/
theorem default_patterns_catch_all_witness :
    (Registry.getBackend mmGlob [backendG] k0).isSome = true :=
  (default_patterns_catch_all mmGlob (fun _ => rfl)).2.2.2.2.1 [backendG] k0
    ⟨backendG, by simp, by simp [backendG, GlfsStorage.fromSchema]⟩

end GlfServer
